import Mathlib

/-
  A verification development for the RTi Cashflowops trading backend
  (repository CashflowMc/rti-trading-backend).

  The definitions below are a shallow embedding of the identity and
  entitlement logic of the backend: the `checkSubscription` and
  `authenticateToken` middleware, the register/login handlers and the
  tier-based result truncation of src/server.js, together with the
  in-memory variants in src/unnamed/part_001 (loginHandler) and
  src/unnamed/part_002 (register) that the properties refer to.

  Timestamps are integers (milliseconds since the epoch, as produced by
  JavaScript Date comparisons).  Fallible operations return sum types.
-/

/-- JavaScript's `String.prototype.toLowerCase`, modelled character by
    character over the string's character list. -/
def jsToLower (s : String) : String := ⟨s.data.map Char.toLower⟩

/-- JavaScript's `String.prototype.trim`: drop whitespace from both ends. -/
def jsTrim (s : String) : String :=
  ⟨((s.data.dropWhile Char.isWhitespace).reverse.dropWhile Char.isWhitespace).reverse⟩

/-- The subscription tiers of the user schema in src/server.js
    (`enum: ['FREE', 'WEEKLY', 'MONTHLY', 'ADMIN']`). -/
inductive Tier where
  | FREE
  | WEEKLY
  | MONTHLY
  | ADMIN
  deriving DecidableEq, Repr

/-- The fields of the Mongoose `User` document of src/server.js that the
    authentication and subscription logic reads or writes.  The STANDARD
    versus ADMIN role of the spec is the `isAdmin` flag of the schema;
    `subscriptionEndDate` is the optional subscription expiry. -/
structure User where
  id : Nat
  username : String
  email : String
  password : String
  tier : Tier
  isAdmin : Bool
  subscriptionEndDate : Option Int
  lastActive : Int
  lastLogin : Int
  loginCount : Nat
  updatedAt : Int
  deriving DecidableEq, Repr

/-- `user.save()`: the pre-save middleware of src/server.js sets
    `updatedAt` to the current time before the record is persisted. -/
def saveUser (now : Int) (u : User) : User := { u with updatedAt := now }

/-- The outcome of the `checkSubscription` middleware: either the request
    proceeds (`allow`, the call to `next()`), or it is answered with an
    error status and code; the SUBSCRIPTION_REQUIRED response body also
    carries the required and current tiers. -/
inductive Decision where
  | allow
  | deny (status : Nat) (code : String) (requiredTier currentTier : Option Tier)
  deriving DecidableEq, Repr

/-- The `checkSubscription(requiredTier)` middleware of src/server.js
    (lines 413 to 446), as a function of the current time and the stored
    account.  Returns the decision together with the account record as
    stored after the call: the admin bypass and the FREE-tier denial leave
    the record untouched, the expired branch persists `tier = 'FREE'` via
    `user.save()`.  The branch order is exactly the code's: admin bypass,
    then the FREE-tier check, then the expiry check. -/
def checkSubscription (requiredTier : Tier) (now : Int) (user : User) :
    Decision × User :=
  if user.isAdmin then (Decision.allow, user)
  else if user.tier = Tier.FREE ∧ requiredTier ≠ Tier.FREE then
    (Decision.deny 402 "SUBSCRIPTION_REQUIRED" (some requiredTier) (some user.tier),
     user)
  else
    match user.subscriptionEndDate with
    | some d =>
        if d < now then
          (Decision.deny 402 "SUBSCRIPTION_EXPIRED" none none,
           saveUser now { user with tier := Tier.FREE })
        else (Decision.allow, user)
    | none => (Decision.allow, user)

/-- The payload src/server.js signs into a session token: `{ userId }`,
    plus the expiry instant that the `expiresIn` option adds. -/
structure Payload where
  userId : Nat
  exp : Int
  deriving DecidableEq, Repr

/-- A signed token.  The HMAC signature over the payload with the
    server-held secret is modelled as the pair of the secret and the signed
    payload: a signature verifies exactly when it was produced with the
    same secret over the same payload, so tampering with any field
    invalidates it. -/
structure SignedToken where
  payload : Payload
  sig : String × Payload
  deriving DecidableEq, Repr

/-- `jwt.sign(payload, secret)`. -/
def jwtSign (secret : String) (p : Payload) : SignedToken := ⟨p, (secret, p)⟩

/-- `jwt.verify(token, secret)` at time `now`: fails when the signature
    does not verify or when the expiry has passed, otherwise yields the
    decoded payload. -/
def jwtVerify (secret : String) (now : Int) (t : SignedToken) : Option Payload :=
  if t.sig = (secret, t.payload) then
    if t.payload.exp ≤ now then none else some t.payload
  else none

/-- The outcome of the authentication middleware: an error response with a
    status and a machine-readable code, or the authenticated account. -/
inductive AuthResult where
  | fail (status : Nat) (code : String)
  | ok (user : User)
  deriving DecidableEq, Repr

/-- `User.findById` over the account store. -/
def findById (store : List User) (uid : Nat) : Option User :=
  store.find? (fun u => u.id == uid)

/-- Persisting one account record: the stored record with the same id is
    replaced. -/
def updateStore (store : List User) (u : User) : List User :=
  store.map (fun v => if v.id == u.id then u else v)

/-- The `authenticateToken` middleware of src/server.js (lines 365 to 410):
    401 NO_TOKEN without a bearer token; 403 INVALID_TOKEN when
    `jwt.verify` fails (bad signature or elapsed expiry); 404
    USER_NOT_FOUND when the decoded userId resolves to no stored account;
    otherwise `lastActive` is set to now, the record is saved, and the
    request proceeds with the stored account.  Returns the result and the
    store after the call. -/
def authenticateToken (secret : String) (now : Int) (store : List User)
    (token : Option SignedToken) : AuthResult × List User :=
  match token with
  | none => (AuthResult.fail 401 "NO_TOKEN", store)
  | some t =>
    match jwtVerify secret now t with
    | none => (AuthResult.fail 403 "INVALID_TOKEN", store)
    | some p =>
      match findById store p.userId with
      | none => (AuthResult.fail 404 "USER_NOT_FOUND", store)
      | some u =>
          let updated := saveUser now { u with lastActive := now }
          (AuthResult.ok updated, updateStore store updated)

/-- bcrypt hashing, modelled as an injective tagging of the password with
    the salt marker the stored demo hashes carry. -/
def bcryptHash (password : String) : String := "$2a$12$" ++ password

/-- `bcrypt.compare(password, hash)`: verification is by re-hash and
    compare, never by decryption. -/
def bcryptCompare (password hash : String) : Bool := hash == bcryptHash password

/-- The outcome of the login route: an error response or a fresh token
    together with the account. -/
inductive LoginResult where
  | fail (status : Nat) (code : String)
  | ok (token : SignedToken) (user : User)
  deriving DecidableEq, Repr

/-- POST /api/auth/login of src/server.js (lines 604 to 679): the account
    is looked up by trimmed username or by lowercased, trimmed email; a
    missing account and a failed `bcrypt.compare` are both answered with
    the same 400 INVALID_CREDENTIALS response; on success `lastLogin` and
    `loginCount` are updated, the record saved, and a fresh token signed.
    `tokenExp` is the expiry instant the `expiresIn: '30d'` option
    computes from the current time. -/
def login (secret : String) (now tokenExp : Int) (store : List User)
    (username password : String) : LoginResult × List User :=
  if username = "" ∨ password = "" then
    (LoginResult.fail 400 "MISSING_CREDENTIALS", store)
  else
    match store.find? (fun u =>
        u.username == jsTrim username || u.email == jsTrim (jsToLower username)) with
    | none => (LoginResult.fail 400 "INVALID_CREDENTIALS", store)
    | some u =>
      if bcryptCompare password u.password then
        let updated := saveUser now { u with lastLogin := now, loginCount := u.loginCount + 1 }
        (LoginResult.ok (jwtSign secret ⟨u.id, tokenExp⟩) updated,
         updateStore store updated)
      else (LoginResult.fail 400 "INVALID_CREDENTIALS", store)

/-- The fields of the in-memory demo user records of src/unnamed/part_001
    that its `loginHandler` reads. -/
structure DemoUser where
  id : String
  username : String
  email : String
  password : String
  isAdmin : Bool
  deriving DecidableEq, Repr

/-- The outcome of `loginHandler` of src/unnamed/part_001. -/
inductive DemoLoginResult where
  | fail (status : Nat) (error : String)
  | ok (user : DemoUser)
  deriving DecidableEq, Repr

/-- `loginHandler` of src/unnamed/part_001 (lines 258 to 282): finds the
    user by username or email; the password is accepted when it is the
    literal string "admin123" OR when `bcrypt.compare` succeeds against the
    stored hash (the bypass the comment in the source marks
    "For demo purposes"). -/
def loginHandler (users : List DemoUser) (username password : String) :
    DemoLoginResult :=
  if username = "" ∨ password = "" then
    DemoLoginResult.fail 400 "Username and password required"
  else
    match users.find? (fun u => u.username == username || u.email == username) with
    | none => DemoLoginResult.fail 401 "Invalid credentials"
    | some u =>
      if password == "admin123" || bcryptCompare password u.password then
        DemoLoginResult.ok u
      else DemoLoginResult.fail 401 "Invalid credentials"

/-- The outcome of the registration route of src/server.js. -/
inductive RegisterResult where
  | fail (status : Nat) (code : String)
  | ok (token : SignedToken) (user : User)
  deriving DecidableEq, Repr

/-- POST /api/auth/register of src/server.js (lines 508 to 602, the
    duplicate check at lines 529 to 541): missing fields answer 400
    MISSING_FIELDS; a password shorter than 6 answers 400
    PASSWORD_TOO_SHORT; an existing account whose stored (lowercased) email
    equals the lowercased input email or whose username equals the input
    username answers 400 USER_EXISTS and stores nothing; otherwise the new
    FREE account is persisted with a freshly computed hash and a token is
    signed.  `newId` models the id MongoDB assigns. -/
def register (secret : String) (now tokenExp : Int) (newId : Nat)
    (store : List User) (username email password : String) :
    RegisterResult × List User :=
  if username = "" ∨ email = "" ∨ password = "" then
    (RegisterResult.fail 400 "MISSING_FIELDS", store)
  else if password.length < 6 then
    (RegisterResult.fail 400 "PASSWORD_TOO_SHORT", store)
  else
    match store.find? (fun u =>
        u.email == jsToLower email || u.username == username) with
    | some _ => (RegisterResult.fail 400 "USER_EXISTS", store)
    | none =>
      let newUser : User :=
        { id := newId
          username := jsTrim username
          email := jsTrim (jsToLower email)
          password := bcryptHash password
          tier := Tier.FREE
          isAdmin := false
          subscriptionEndDate := none
          lastActive := now
          lastLogin := now
          loginCount := 1
          updatedAt := now }
      (RegisterResult.ok (jwtSign secret ⟨newId, tokenExp⟩) newUser,
       store ++ [newUser])

/-- The fields of the in-memory mock users of src/unnamed/part_002 that
    its registration route reads. -/
structure MockUser where
  id : Nat
  username : String
  email : String
  password : String
  tier : Tier
  isAdmin : Bool
  deriving DecidableEq, Repr

/-- The outcome of the registration route of src/unnamed/part_002. -/
inductive MockRegisterResult where
  | fail (status : Nat) (error : String)
  | ok (user : MockUser)
  deriving DecidableEq, Repr

/-- POST /api/auth/register of src/unnamed/part_002 (lines 177 to 235): a
    duplicate username or a (case-sensitively) duplicate email answers
    409 and stores nothing; otherwise the new FREE account is pushed onto
    the in-memory users array. -/
def mockRegister (users : List MockUser) (username email password : String) :
    MockRegisterResult × List MockUser :=
  if username = "" ∨ email = "" ∨ password = "" then
    (MockRegisterResult.fail 400 "Username, email, and password are required", users)
  else
    match users.find? (fun u => u.email == email || u.username == username) with
    | some _ => (MockRegisterResult.fail 409 "User already exists", users)
    | none =>
      let newUser : MockUser :=
        ⟨users.length + 1, username, email, bcryptHash password, Tier.FREE, false⟩
      (MockRegisterResult.ok newUser, users ++ [newUser])

/-- The tier-based truncation constant: both gated listings in
    src/server.js post-filter with `results.slice(0, 5)`. -/
def freeLimit : Nat := 5

/-- The subscription post-filter of GET /api/alerts (lines 1199 to 1203)
    and GET /api/users/active (lines 1319 to 1323) of src/server.js: a
    caller with `tier === 'FREE' && !isAdmin` receives `slice(0, 5)` of the
    already-sorted result list, everyone else receives the full list. -/
def limitResults {α : Type} (user : User) (l : List α) : List α :=
  if user.tier = Tier.FREE ∧ user.isAdmin = false then l.take freeLimit else l

/-- A concrete STANDARD account on the MONTHLY tier whose subscription
    expiry (instant 5) can be placed in the past by choosing now > 5. -/
def expiredMonthlyUser : User :=
  { id := 7
    username := "trader7"
    email := "trader7@example.com"
    password := bcryptHash "hunter2"
    tier := Tier.MONTHLY
    isAdmin := false
    subscriptionEndDate := some 5
    lastActive := 0
    lastLogin := 0
    loginCount := 3
    updatedAt := 0 }

/-- A concrete ADMIN account, with an expiry already in the past to show
    the bypass ignores it. -/
def adminUser : User :=
  { id := 1
    username := "admin"
    email := "admin@rti-cashflowops.com"
    password := bcryptHash "admin123"
    tier := Tier.ADMIN
    isAdmin := true
    subscriptionEndDate := some (-10)
    lastActive := 0
    lastLogin := 0
    loginCount := 1
    updatedAt := 0 }

/-- C1: a non-admin (STANDARD) account with tier MONTHLY and an elapsed
    subscriptionExpiry, checked with requiredTier WEEKLY, is on the first
    call denied 402 SUBSCRIPTION_EXPIRED and the downgrade tier := FREE is
    persisted (with the pre-save updatedAt bookkeeping); a call at any
    later time at which the still-set expiry is still in the past answers
    402 SUBSCRIPTION_REQUIRED and returns the record untouched, so the
    expiry branch never fires again: the state after every subsequent call
    is the state after the first. -/
theorem expired_monthly_downgrade_then_required (user : User) (d now later : Int)
    (hadmin : user.isAdmin = false) (htier : user.tier = Tier.MONTHLY)
    (hexp : user.subscriptionEndDate = some d)
    (hpast : d < now) (hlater : d < later) :
    checkSubscription Tier.WEEKLY now user =
      (Decision.deny 402 "SUBSCRIPTION_EXPIRED" none none,
       saveUser now { user with tier := Tier.FREE }) ∧
    checkSubscription Tier.WEEKLY later (saveUser now { user with tier := Tier.FREE }) =
      (Decision.deny 402 "SUBSCRIPTION_REQUIRED" (some Tier.WEEKLY) (some Tier.FREE),
       saveUser now { user with tier := Tier.FREE }) := by
  constructor
  · simp [checkSubscription, hadmin, htier, hexp, hpast]
  · simp [checkSubscription, saveUser, hadmin, hexp]

/-- Closed instance of the C1 theorem at the concrete expired account. -/
theorem expired_monthly_downgrade_then_required_witness :
    checkSubscription Tier.WEEKLY 10 expiredMonthlyUser =
      (Decision.deny 402 "SUBSCRIPTION_EXPIRED" none none,
       saveUser 10 { expiredMonthlyUser with tier := Tier.FREE }) ∧
    checkSubscription Tier.WEEKLY 20
        (saveUser 10 { expiredMonthlyUser with tier := Tier.FREE }) =
      (Decision.deny 402 "SUBSCRIPTION_REQUIRED" (some Tier.WEEKLY) (some Tier.FREE),
       saveUser 10 { expiredMonthlyUser with tier := Tier.FREE }) :=
  expired_monthly_downgrade_then_required expiredMonthlyUser 5 10 20
    rfl rfl rfl (by decide) (by decide)

/-- C2: an account with the ADMIN role is allowed unconditionally — for
    every requiredTier, every tier, every subscriptionEndDate and every
    current time — with the stored record untouched; in particular no
    check on an admin account ever produces a deny response (so never a
    402). -/
theorem admin_always_allowed (requiredTier : Tier) (now : Int) (user : User)
    (hadmin : user.isAdmin = true) :
    checkSubscription requiredTier now user = (Decision.allow, user) ∧
    ∀ s c rt ct, (checkSubscription requiredTier now user).1 ≠ Decision.deny s c rt ct := by
  have h : checkSubscription requiredTier now user = (Decision.allow, user) := by
    simp [checkSubscription, hadmin]
  exact ⟨h, by simp [h]⟩

/-- Closed instance of the C2 theorem at the concrete admin account. -/
theorem admin_always_allowed_witness :
    checkSubscription Tier.MONTHLY 10 adminUser = (Decision.allow, adminUser) :=
  (admin_always_allowed Tier.MONTHLY 10 adminUser rfl).1

/-- C5 counterexample: requiredTier = FREE is not allowed unconditionally.
    The concrete non-admin MONTHLY account with an elapsed expiry, checked
    with requiredTier FREE, is answered 402 SUBSCRIPTION_EXPIRED and its
    record is downgraded: the code checks the expiry before any
    requiredTier = FREE short-circuit (there is none). -/
theorem required_free_not_unconditional :
    checkSubscription Tier.FREE 10 expiredMonthlyUser =
      (Decision.deny 402 "SUBSCRIPTION_EXPIRED" none none,
       saveUser 10 { expiredMonthlyUser with tier := Tier.FREE }) ∧
    (checkSubscription Tier.FREE 10 expiredMonthlyUser).1 ≠ Decision.allow ∧
    (checkSubscription Tier.FREE 10 expiredMonthlyUser).2 ≠ expiredMonthlyUser := by
  decide

/-- C5 amended: with requiredTier = FREE the check allows and leaves the
    account unchanged unless the account is non-admin with an elapsed
    subscriptionExpiry, in which case it denies 402 SUBSCRIPTION_EXPIRED
    and persists the downgrade to FREE; admin accounts are always
    allowed. -/
theorem required_free_check (now : Int) (user : User) :
    (user.isAdmin = true →
      checkSubscription Tier.FREE now user = (Decision.allow, user)) ∧
    (user.isAdmin = false →
      (∀ d, user.subscriptionEndDate = some d → now ≤ d) →
      checkSubscription Tier.FREE now user = (Decision.allow, user)) ∧
    (∀ d, user.isAdmin = false → user.subscriptionEndDate = some d → d < now →
      checkSubscription Tier.FREE now user =
        (Decision.deny 402 "SUBSCRIPTION_EXPIRED" none none,
         saveUser now { user with tier := Tier.FREE })) := by
  refine ⟨fun h => by simp [checkSubscription, h], fun h hd => ?_, fun d h hde hlt => ?_⟩
  · cases hsub : user.subscriptionEndDate with
    | none => simp [checkSubscription, h, hsub]
    | some d => simp [checkSubscription, h, hsub, Int.not_lt.mpr (hd d hsub)]
  · simp [checkSubscription, h, hde, hlt]

/-- Closed instance of the C5 amended theorem: the expired branch at the
    concrete account. -/
theorem required_free_check_witness :
    checkSubscription Tier.FREE 10 expiredMonthlyUser =
      (Decision.deny 402 "SUBSCRIPTION_EXPIRED" none none,
       saveUser 10 { expiredMonthlyUser with tier := Tier.FREE }) :=
  (required_free_check 10 expiredMonthlyUser).2.2 5 rfl rfl (by decide)

/-- C9: checkSubscription writes no account field other than tier (plus
    the updatedAt bookkeeping of the pre-save middleware): username,
    email, credential hash, isAdmin, subscriptionEndDate, lastActive,
    lastLogin and loginCount survive every check; every outcome other than
    the 402 SUBSCRIPTION_EXPIRED denial returns the record exactly as it
    was, and the expired denial changes exactly tier (to FREE) and
    updatedAt. -/
theorem checkSubscription_frame (requiredTier : Tier) (now : Int) (user : User) :
    ((checkSubscription requiredTier now user).2.username = user.username ∧
     (checkSubscription requiredTier now user).2.email = user.email ∧
     (checkSubscription requiredTier now user).2.password = user.password ∧
     (checkSubscription requiredTier now user).2.isAdmin = user.isAdmin ∧
     (checkSubscription requiredTier now user).2.subscriptionEndDate
        = user.subscriptionEndDate ∧
     (checkSubscription requiredTier now user).2.lastActive = user.lastActive ∧
     (checkSubscription requiredTier now user).2.lastLogin = user.lastLogin ∧
     (checkSubscription requiredTier now user).2.loginCount = user.loginCount) ∧
    ((checkSubscription requiredTier now user).1 ≠
        Decision.deny 402 "SUBSCRIPTION_EXPIRED" none none →
      (checkSubscription requiredTier now user).2 = user) ∧
    ((checkSubscription requiredTier now user).1 =
        Decision.deny 402 "SUBSCRIPTION_EXPIRED" none none →
      (checkSubscription requiredTier now user).2 =
        saveUser now { user with tier := Tier.FREE }) := by
  by_cases h1 : user.isAdmin = true
  · simp [checkSubscription, h1]
  · have h1f : user.isAdmin = false := by simpa using h1
    by_cases h2 : user.tier = Tier.FREE ∧ requiredTier ≠ Tier.FREE
    · simp [checkSubscription, h1f, h2]
    · cases hsub : user.subscriptionEndDate with
      | none => simp [checkSubscription, h1f, h2, hsub]
      | some d =>
        by_cases h3 : d < now
        · simp [checkSubscription, saveUser, h1f, h2, hsub, h3]
        · simp [checkSubscription, h1f, h2, hsub, h3]

/-- Closed instance of the C9 theorem: the expired branch changes the
    stored record to exactly the FREE-downgraded, re-timestamped one. -/
theorem checkSubscription_frame_witness :
    (checkSubscription Tier.WEEKLY 10 expiredMonthlyUser).2 =
      saveUser 10 { expiredMonthlyUser with tier := Tier.FREE } :=
  (checkSubscription_frame Tier.WEEKLY 10 expiredMonthlyUser).2.2 (by decide)

/-- A token correctly signed with the server secret whose expiry (5)
    precedes the check time used below (10). -/
def staleToken : SignedToken := jwtSign "fallback_secret" ⟨7, 5⟩

/-- C4 counterexample: the claim routes both token-failure modes to the
    endpoint's 401 response, but the code answers an expired,
    correctly-signed token with HTTP 403 (code INVALID_TOKEN); 401 is the
    missing-token response. -/
theorem expired_token_status_is_403 :
    (authenticateToken "fallback_secret" 10 [expiredMonthlyUser] (some staleToken)).1 =
      AuthResult.fail 403 "INVALID_TOKEN" ∧
    AuthResult.fail 403 "INVALID_TOKEN" ≠ AuthResult.fail 401 "INVALID_TOKEN" ∧
    (403 : Nat) ≠ 401 := by decide

/-- C4 amended: authenticateToken rejects every expired token even when
    its signature is valid, and every badly-signed token even when
    unexpired, and both failure modes surface externally as the SAME
    response — HTTP 403 with code INVALID_TOKEN (not the 401, which is
    reserved for the missing-token case) — the two causes distinguished
    only inside jwt.verify; the store is unchanged. -/
theorem invalid_token_uniform_rejection (secret : String) (now : Int)
    (store : List User) (t : SignedToken)
    (hbad : (t.sig = (secret, t.payload) ∧ t.payload.exp ≤ now) ∨
            t.sig ≠ (secret, t.payload)) :
    authenticateToken secret now store (some t) =
      (AuthResult.fail 403 "INVALID_TOKEN", store) := by
  rcases hbad with ⟨hsig, hexp⟩ | hsig
  · simp [authenticateToken, jwtVerify, hsig, hexp]
  · simp [authenticateToken, jwtVerify, hsig]

/-- Closed instance of the C4 amended theorem at the concrete expired,
    correctly-signed token. -/
theorem invalid_token_uniform_rejection_witness :
    authenticateToken "fallback_secret" 10 [expiredMonthlyUser] (some staleToken) =
      (AuthResult.fail 403 "INVALID_TOKEN", [expiredMonthlyUser]) :=
  invalid_token_uniform_rejection "fallback_secret" 10 [expiredMonthlyUser]
    staleToken (Or.inl ⟨rfl, by decide⟩)

/-- C10: a correctly signed, unexpired token whose embedded accountId
    resolves to no stored account is answered HTTP 404 with code
    USER_NOT_FOUND — an outcome distinct from the 401 no-token and 403
    invalid-token responses — and the store is returned unchanged. -/
theorem deleted_account_404 (secret : String) (now : Int) (store : List User)
    (p : Payload) (hexp : now < p.exp)
    (hfind : findById store p.userId = none) :
    authenticateToken secret now store (some (jwtSign secret p)) =
      (AuthResult.fail 404 "USER_NOT_FOUND", store) ∧
    AuthResult.fail 404 "USER_NOT_FOUND" ≠ AuthResult.fail 401 "NO_TOKEN" ∧
    AuthResult.fail 404 "USER_NOT_FOUND" ≠ AuthResult.fail 403 "INVALID_TOKEN" := by
  refine ⟨?_, by decide, by decide⟩
  simp [authenticateToken, jwtVerify, jwtSign, hfind, Int.not_le.mpr hexp]

/-- Closed instance of the C10 theorem: the store holds only account 7,
    the valid token names account 3. -/
theorem deleted_account_404_witness :
    authenticateToken "fallback_secret" 10 [expiredMonthlyUser]
        (some (jwtSign "fallback_secret" ⟨3, 99⟩)) =
      (AuthResult.fail 404 "USER_NOT_FOUND", [expiredMonthlyUser]) :=
  (deleted_account_404 "fallback_secret" 10 [expiredMonthlyUser] ⟨3, 99⟩
    (by decide) (by decide)).1

/-- The account of `expiredMonthlyUser` as re-stored after a tier change:
    same id, different tier. -/
def downgradedUser : User := { expiredMonthlyUser with tier := Tier.FREE }

/-- The payload src/unnamed/part_002 signs into its tokens (lines 210 to
    220 and 269 to 279): id, username, email, isAdmin and tier AT ISSUE
    TIME, plus the expiry the expiresIn option adds. -/
structure MockPayload where
  id : Nat
  username : String
  email : String
  isAdmin : Bool
  tier : Tier
  exp : Int
  deriving DecidableEq, Repr

/-- A token of the src/unnamed/part_002 variant: its payload plus the
    signature, modelled as for `SignedToken`. -/
structure MockSignedToken where
  payload : MockPayload
  sig : String × MockPayload
  deriving DecidableEq, Repr

/-- `jwt.sign` as called by src/unnamed/part_002. -/
def mockJwtSign (secret : String) (p : MockPayload) : MockSignedToken :=
  ⟨p, (secret, p)⟩

/-- `jwt.verify` over the part_002 token shape: fails on a bad signature
    or an elapsed expiry, otherwise yields the decoded payload. -/
def mockJwtVerify (secret : String) (now : Int) (t : MockSignedToken) :
    Option MockPayload :=
  if t.sig = (secret, t.payload) then
    if t.payload.exp ≤ now then none else some t.payload
  else none

/-- The outcome of the part_002 authentication middleware: an error
    response, or the decoded payload that becomes `req.user`. -/
inductive MockAuthResult where
  | fail (status : Nat) (error : String)
  | ok (payload : MockPayload)
  deriving DecidableEq, Repr

/-- The `authenticateToken` middleware of src/unnamed/part_002 (lines 128
    to 143): 401 without a token, 403 when `jwt.verify` fails; otherwise
    `req.user` is set to the DECODED TOKEN PAYLOAD — the users array is
    never consulted (the function does not even take the store). -/
def mockAuthenticateToken (secret : String) (now : Int)
    (token : Option MockSignedToken) : MockAuthResult :=
  match token with
  | none => MockAuthResult.fail 401 "Access token required"
  | some t =>
    match mockJwtVerify secret now t with
    | none => MockAuthResult.fail 403 "Invalid or expired token"
    | some p => MockAuthResult.ok p

/-- The `requireAdmin` middleware of src/unnamed/part_002 (lines 146 to
    151): it authorizes on `req.user.isAdmin`, i.e. on the isAdmin of the
    decoded payload. -/
def mockRequireAdmin (reqUser : MockPayload) : Bool := reqUser.isAdmin

/-- The JWT secret of src/unnamed/part_002. -/
def mockSecret : String := "your-super-secret-jwt-key-change-in-production"

/-- The payload part_002 signed at login while account 1 was still an
    ADMIN admin. -/
def mockIssuedPayload : MockPayload :=
  ⟨1, "admin", "admin@example.com", true, Tier.ADMIN, 99⟩

/-- The still-valid token issued from that payload. -/
def mockIssuedToken : MockSignedToken := mockJwtSign mockSecret mockIssuedPayload

/-- Account 1 as stored AFTER the token above was issued: demoted to a
    non-admin FREE user. -/
def demotedMockUser : MockUser :=
  ⟨1, "admin", "admin@example.com", bcryptHash "password", Tier.FREE, false⟩

/-- C7 counterexample: in the cited src/unnamed/part_002 middleware the
    next request does NOT observe a tier/role change made after issuance.
    The store currently holds account 1 demoted to a non-admin FREE user,
    yet the still-valid token issued earlier authenticates the request as
    the issue-time payload — isAdmin true, tier ADMIN — and requireAdmin
    authorizes it as an admin: the request is authorized against the
    snapshot embedded in the token, not the stored values. -/
theorem snapshot_token_not_current :
    mockAuthenticateToken mockSecret 10 (some mockIssuedToken) =
      MockAuthResult.ok mockIssuedPayload ∧
    mockIssuedPayload.isAdmin = true ∧
    mockIssuedPayload.tier = Tier.ADMIN ∧
    mockRequireAdmin mockIssuedPayload = true ∧
    List.find? (fun u => u.id == mockIssuedPayload.id) [demotedMockUser] =
      some demotedMockUser ∧
    demotedMockUser.isAdmin = false ∧
    demotedMockUser.tier = Tier.FREE := by decide

/-- C7 amended: token resolution differs between the two cited
    implementations.  In src/server.js the middleware resolves a token to
    the account as currently stored: the token carries only the account
    id, so when the stored record of that id has changed from uOld (issue
    time) to uNew (current), a request presenting the still-valid token is
    authenticated as uNew and observes uNew's tier and role, whatever
    uOld's were.  In the src/unnamed/part_002 variant, `req.user` is
    always exactly the decoded payload — which embeds id, tier and isAdmin
    at issue time and is never re-resolved against the store — so there a
    still-valid token keeps its issue-time snapshot, and requireAdmin
    authorizes against that snapshot's isAdmin. -/
theorem token_resolution_per_variant (secret : String) (now expiry : Int)
    (store : List User) (uOld uNew : User) (mp : MockPayload)
    (hid : uOld.id = uNew.id) (hexp : now < expiry)
    (hfind : findById store uNew.id = some uNew)
    (hmexp : now < mp.exp) :
    ((authenticateToken secret now store (some (jwtSign secret ⟨uOld.id, expiry⟩))).1 =
       AuthResult.ok (saveUser now { uNew with lastActive := now }) ∧
     (saveUser now { uNew with lastActive := now }).tier = uNew.tier ∧
     (saveUser now { uNew with lastActive := now }).isAdmin = uNew.isAdmin) ∧
    (mockAuthenticateToken secret now (some (mockJwtSign secret mp)) =
       MockAuthResult.ok mp ∧
     mockRequireAdmin mp = mp.isAdmin) := by
  refine ⟨⟨?_, rfl, rfl⟩, ⟨?_, rfl⟩⟩
  · simp [authenticateToken, jwtVerify, jwtSign, hid, hfind, Int.not_le.mpr hexp]
  · simp [mockAuthenticateToken, mockJwtVerify, mockJwtSign, Int.not_le.mpr hmexp]

/-- Closed instance of the C7 amended theorem: in src/server.js the token
    issued for the MONTHLY record of account 7 authenticates against the
    FREE record now stored; in the part_002 variant the decoded issue-time
    payload comes back verbatim. -/
theorem token_resolution_per_variant_witness :
    (authenticateToken "fallback_secret" 10 [downgradedUser]
        (some (jwtSign "fallback_secret" ⟨expiredMonthlyUser.id, 99⟩))).1 =
      AuthResult.ok (saveUser 10 { downgradedUser with lastActive := 10 }) ∧
    mockAuthenticateToken "fallback_secret" 10
        (some (mockJwtSign "fallback_secret" mockIssuedPayload)) =
      MockAuthResult.ok mockIssuedPayload :=
  have h := token_resolution_per_variant "fallback_secret" 10 99 [downgradedUser]
    expiredMonthlyUser downgradedUser mockIssuedPayload rfl (by decide)
    (by decide) (by decide)
  ⟨h.1.1, h.2.1⟩

/-- The in-memory users array of src/unnamed/part_001 after a registration
    with password "hunter2": the stored hash is the hash of "hunter2", not
    of "admin123". -/
def demoUser : DemoUser :=
  ⟨"2", "user1", "user1@example.com", bcryptHash "hunter2", false⟩

/-- C3 (code bug): loginHandler of src/unnamed/part_001 accepts the
    literal password "admin123" for ANY account: with a store holding one
    account whose credential hash is the hash of "hunter2", login with
    "admin123" succeeds although re-hashing "admin123" does not match the
    stored hash — contradicting the claim, which §9 of the spec backs by
    calling the bypass leftover debug code to be treated as a bug.  The
    same-error half of the claim does hold here: an unknown identifier and
    a wrong password produce the identical 401 response. -/
theorem admin123_bypass_breaks_hash_only_login :
    loginHandler [demoUser] "user1" "admin123" = DemoLoginResult.ok demoUser ∧
    bcryptCompare "admin123" demoUser.password = false ∧
    loginHandler [demoUser] "nosuchuser" "hunter2" =
      DemoLoginResult.fail 401 "Invalid credentials" ∧
    loginHandler [demoUser] "user1" "wrongpass" =
      DemoLoginResult.fail 401 "Invalid credentials" ∧
    login "s" 1 2 [expiredMonthlyUser] "trader7" "wrongpass" =
      (LoginResult.fail 400 "INVALID_CREDENTIALS", [expiredMonthlyUser]) ∧
    login "s" 1 2 [expiredMonthlyUser] "nobody" "hunter2" =
      (LoginResult.fail 400 "INVALID_CREDENTIALS", [expiredMonthlyUser]) := by decide

/-- A stored account for the duplicate-registration scenario (emails are
    stored lowercased by the schema of src/server.js). -/
def registeredUser : User :=
  { id := 3
    username := "alice"
    email := "alice@example.com"
    password := bcryptHash "secret1"
    tier := Tier.FREE
    isAdmin := false
    subscriptionEndDate := none
    lastActive := 0
    lastLogin := 0
    loginCount := 1
    updatedAt := 0 }

/-- A stored account of the in-memory variant of src/unnamed/part_002. -/
def mockStoredUser : MockUser :=
  ⟨1, "alice", "alice@example.com", bcryptHash "secret1", Tier.FREE, false⟩

/-- C6 counterexample: in src/server.js a second registration with an
    already-used email (here differing only in case) and a new username is
    rejected with HTTP 400 (code USER_EXISTS), not with the 409 the claim
    states; the store is unchanged. -/
theorem duplicate_register_status_400 :
    register "s" 50 99 4 [registeredUser] "bob" "Alice@Example.com" "secret2" =
      (RegisterResult.fail 400 "USER_EXISTS", [registeredUser]) ∧
    (400 : Nat) ≠ 409 := by decide

/-- C6 amended: a second registration with an already-taken username or
    email fails with a conflict response and stores nothing — in
    src/server.js with HTTP 400 USER_EXISTS and the email compared
    case-insensitively, in src/unnamed/part_002 with HTTP 409 and the
    email compared case-sensitively — and in both variants the account
    store is returned exactly unchanged by the failing call. -/
theorem duplicate_register_conflict
    (secret : String) (now tokenExp : Int) (newId : Nat)
    (store : List User) (u : User) (username email password : String)
    (musers : List MockUser) (mu : MockUser)
    (hu : u ∈ store) (hdup : u.email = jsToLower email ∨ u.username = username)
    (husername : username ≠ "") (hemail : email ≠ "")
    (hpw : ¬ password.length < 6)
    (hmu : mu ∈ musers) (hmdup : mu.email = email ∨ mu.username = username) :
    register secret now tokenExp newId store username email password =
      (RegisterResult.fail 400 "USER_EXISTS", store) ∧
    mockRegister musers username email password =
      (MockRegisterResult.fail 409 "User already exists", musers) := by
  have hpassword : password ≠ "" := fun h => hpw (by rw [h]; decide)
  constructor
  · cases hfind : store.find? (fun v => v.email == jsToLower email || v.username == username) with
    | none =>
        have hnone := List.find?_eq_none.mp hfind u hu
        rcases hdup with h | h <;> simp [h] at hnone
    | some v =>
        simp [register, husername, hemail, hpassword, hpw, hfind]
  · cases hfind : musers.find? (fun v => v.email == email || v.username == username) with
    | none =>
        have hnone := List.find?_eq_none.mp hfind mu hmu
        rcases hmdup with h | h <;> simp [h] at hnone
    | some v =>
        simp [mockRegister, husername, hemail, hpassword, hfind]

/-- Closed instance of the C6 amended theorem: a duplicate username
    against both src/server.js and the in-memory variant. -/
theorem duplicate_register_conflict_witness :
    register "s" 50 99 4 [registeredUser] "alice" "other@example.com" "secret2" =
      (RegisterResult.fail 400 "USER_EXISTS", [registeredUser]) ∧
    mockRegister [mockStoredUser] "alice" "other@example.com" "secret2" =
      (MockRegisterResult.fail 409 "User already exists", [mockStoredUser]) :=
  duplicate_register_conflict "s" 50 99 4 [registeredUser] registeredUser
    "alice" "other@example.com" "secret2" [mockStoredUser] mockStoredUser
    (by decide) (Or.inr rfl) (by decide) (by decide) (by decide)
    (by decide) (Or.inr rfl)

/-- C8: the gated listings' post-filter.  With the fixed truncation
    constant freeLimit = 5 (between 3 and 5), a FREE non-admin caller
    receives exactly the first min(n, 5) items of the sorted result list —
    the output concatenated with the dropped suffix is the input, so it is
    a prefix and stays sorted, and it is strictly shorter than the input
    whenever n > 5 — while an admin caller or one on a non-FREE tier
    (WEEKLY, MONTHLY, ADMIN) receives the full list. -/
theorem tier_truncation {α : Type} (user : User) (l : List α)
    (r : α → α → Prop) (hsorted : List.Pairwise r l) :
    (3 ≤ freeLimit ∧ freeLimit ≤ 5) ∧
    (user.tier = Tier.FREE ∧ user.isAdmin = false →
      limitResults user l = l.take freeLimit ∧
      (limitResults user l).length = min l.length freeLimit ∧
      limitResults user l ++ l.drop freeLimit = l ∧
      List.Pairwise r (limitResults user l) ∧
      (freeLimit < l.length → limitResults user l ≠ l)) ∧
    (user.isAdmin = true ∨ user.tier ≠ Tier.FREE → limitResults user l = l) := by
  refine ⟨⟨by decide, by decide⟩, fun h => ?_, fun h => ?_⟩
  · have heq : limitResults user l = l.take freeLimit := by
      simp [limitResults, h.1, h.2]
    refine ⟨heq, ?_, ?_, ?_, fun hlen hcontra => ?_⟩
    · rw [heq, List.length_take, Nat.min_comm]
    · rw [heq, List.take_append_drop]
    · rw [heq]; exact hsorted.sublist (List.take_sublist _ _)
    · rw [heq] at hcontra
      have hlen2 := congrArg List.length hcontra
      rw [List.length_take] at hlen2
      omega
  · rcases h with h | h
    · simp [limitResults, h]
    · simp [limitResults, h]

/-- Closed instance of the C8 theorem: a FREE non-admin caller gets the
    5-item strict prefix of a 7-item newest-first list. -/
theorem tier_truncation_witness :
    limitResults registeredUser ([9, 8, 7, 6, 5, 4, 3] : List Nat) =
      ([9, 8, 7, 6, 5, 4, 3] : List Nat).take freeLimit ∧
    limitResults registeredUser ([9, 8, 7, 6, 5, 4, 3] : List Nat) ≠
      ([9, 8, 7, 6, 5, 4, 3] : List Nat) := by
  have h := (tier_truncation registeredUser ([9, 8, 7, 6, 5, 4, 3] : List Nat)
      (fun a b => a > b) (by decide)).2.1 ⟨rfl, rfl⟩
  exact ⟨h.1, h.2.2.2.2 (by decide)⟩
